import Mathlib

/-!
Shallow embedding of the Travel_Agent repository
(multi_agent_weather/main.py and multi_agent_weather/weather_agent/agent.py).

Upstream HTTP calls (geocoding, forecast, generative text) are modeled as an
environment mapping the request URL (or the prompt) to either a decoded JSON
value or a raised exception carrying a message.  Python exceptions raised
inside a try block are modeled with an Except String monad; the enclosing
handler folds them into the value the source returns.  Numeric JSON values
are pass-through only (no arithmetic is performed on them anywhere in the
source), so they are modeled as Int.
-/

/-- Numeric JSON values (temperatures, probabilities, coordinates). The source
performs no arithmetic on them; they are carried through verbatim. -/
abbrev JNum := Int

/-- One element of the geocoding response "results" array.  Fields the code
indexes with [] (latitude, longitude) raise KeyError when absent, hence
Option; "country" is read with .get and a default. -/
structure GeoLocation where
  latitude : Option JNum
  longitude : Option JNum
  country : Option String
deriving Repr, DecidableEq

/-- Decoded geocoding JSON body: geo_res.get "results" is None when the key
is absent, and the list may be empty; both are falsy in Python. -/
structure GeoResponse where
  results : Option (List GeoLocation)
deriving Repr, DecidableEq

/-- The "daily" object of a forecast response; each array key raises
KeyError when absent. -/
structure DailyData where
  temperature_2m_max : Option (List JNum)
  temperature_2m_min : Option (List JNum)
  precipitation_probability_max : Option (List JNum)
deriving Repr, DecidableEq

/-- Decoded forecast JSON body: the code tests whether "daily" is present. -/
structure WeatherResponse where
  daily : Option DailyData
deriving Repr, DecidableEq

/-- Outcome of one requests.get(url).json() call: a decoded value, or an
exception (network error, malformed body) with its message. -/
inductive Upstream (α : Type) where
  | ok (val : α)
  | exn (msg : String)
deriving Repr, DecidableEq

/-- The outside world seen by one lookup: the geocoding service and the
forecast service, each as a function from the request URL to its outcome. -/
structure Http where
  geo : String → Upstream GeoResponse
  weather : String → Upstream WeatherResponse

/-- Python city_name.replace " " "%20" at the level of character lists:
every space becomes the three characters of the escape. -/
def replaceSpace20 : List Char → List Char
  | [] => []
  | c :: cs =>
      if c = ' ' then '%' :: '2' :: '0' :: replaceSpace20 cs
      else c :: replaceSpace20 cs

/-- city_quoted = city_name.replace " " "%20" in main.py get_weather_data. -/
def city_quoted (city_name : String) : String :=
  ⟨replaceSpace20 city_name.data⟩

/-- The geocoding URL built by main.py get_weather_data (spaces encoded). -/
def geo_url (city_name : String) : String :=
  "https://geocoding-api.open-meteo.com/v1/search?name=" ++ city_quoted city_name ++
    "&count=1&language=en&format=json"

/-- The forecast URL built from the coordinates of the first geocoding
result; identical construction in main.py and agent.py. -/
def weather_url (lat lon : JNum) : String :=
  "https://api.open-meteo.com/v1/forecast?latitude=" ++ toString lat ++
    "&longitude=" ++ toString lon ++
    "&daily=temperature_2m_max,temperature_2m_min,precipitation_probability_max&timezone=auto"

/-- The weather summary dict returned by main.py get_weather_data. -/
structure WeatherSummary where
  city : String
  country : String
  temp_max : JNum
  temp_min : JNum
  precip_prob : JNum
deriving Repr, DecidableEq

/-- Body of the try block of main.py get_weather_data, line for line:
geocode, take the first result, read its coordinates, fetch the forecast,
check "daily", extract index 0 of the three arrays.  Except.error is a
Python exception propagating out of the block. -/
def get_weather_data_try (city_name : String) (http : Http) :
    Except String (Option WeatherSummary) :=
  match http.geo (geo_url city_name) with
  | .exn e => .error e
  | .ok geo_res =>
    match geo_res.results with
    | none => .ok none
    | some [] => .ok none
    | some (location :: _) =>
      match location.latitude with
      | none => .error "KeyError: latitude"
      | some lat =>
        match location.longitude with
        | none => .error "KeyError: longitude"
        | some lon =>
          match http.weather (weather_url lat lon) with
          | .exn e => .error e
          | .ok weather_res =>
            match weather_res.daily with
            | none => .ok none
            | some daily =>
              match daily.temperature_2m_max with
              | none => .error "KeyError: temperature_2m_max"
              | some [] => .error "list index out of range"
              | some (temp_max :: _) =>
                match daily.temperature_2m_min with
                | none => .error "KeyError: temperature_2m_min"
                | some [] => .error "list index out of range"
                | some (temp_min :: _) =>
                  match daily.precipitation_probability_max with
                  | none => .error "KeyError: precipitation_probability_max"
                  | some [] => .error "list index out of range"
                  | some (precip_prob :: _) =>
                    .ok (some
                      { city := city_name
                        country := location.country.getD ""
                        temp_max := temp_max
                        temp_min := temp_min
                        precip_prob := precip_prob })

/-- main.py get_weather_data: the except handler converts every exception to
None; the returned dict is never empty, so its Python truthiness coincides
with being non-None. -/
def get_weather_data (city_name : String) (http : Http) : Option WeatherSummary :=
  match get_weather_data_try city_name http with
  | .ok v => v
  | .error _ => none

/-- Outcome of a FastAPI endpoint call: a 200 body, or an HTTPException
with status code and detail. -/
inductive EndpointResult (α : Type) where
  | ok (body : α)
  | httpError (status : Nat) (detail : String)
deriving Repr, DecidableEq

/-- main.py get_weather_endpoint, the handler of GET /weather/(city). -/
def get_weather_endpoint (city : String) (http : Http) : EndpointResult WeatherSummary :=
  match get_weather_data city http with
  | none => .httpError 404 "City not found"
  | some data => .ok data

/-- The weather_info string built by main.py travel_advice. -/
def weather_info (w : WeatherSummary) : String :=
  "Destination: " ++ w.city ++ ", " ++ w.country ++ ". " ++
    "Forecast: Max " ++ toString w.temp_max ++ "¬∞C, Min " ++ toString w.temp_min ++ "¬∞C, " ++
    "Precipitation Probability: " ++ toString w.precip_prob ++ "%."

/-- The prompt submitted to the generative model by main.py travel_advice. -/
def advice_prompt (w : WeatherSummary) : String :=
  "Act as a Travel Advisor. Based on the following destination and weather info, " ++
    "provide clothing and travel recommendations. Do NOT use asterisks for bolding. " ++
    "Instead, put the topic at the start of the line, followed by a relevant emoji, " ++
    "then the description. Use clear headings (using ###):\n\n" ++ weather_info w

/-- The generative text service: maps the submitted prompt to the response
text, or to a raised exception with its message. -/
structure GenEnv where
  generate_content : String → Upstream String

/-- The JSON body returned by a successful POST /travel_advice. -/
structure AdviceResult where
  advice : String
  weather : WeatherSummary
deriving Repr, DecidableEq

/-- main.py travel_advice, the handler of POST /travel_advice: weather
lookup, 404 when it fails, prompt construction, generative call, 500 with
the exception message when that call raises, else the 200 body. -/
def travel_advice (destination : String) (http : Http) (gen : GenEnv) :
    EndpointResult AdviceResult :=
  match get_weather_data destination http with
  | none => .httpError 404 "Weather data not found for destination"
  | some weather_data =>
    match gen.generate_content (advice_prompt weather_data) with
    | .exn e => .httpError 500 ("AI Agent error: " ++ e)
    | .ok advice => .ok { advice := advice, weather := weather_data }

/-- The geocoding URL built by agent.py get_weather: the city string is
embedded verbatim in the f-string, with no space encoding. -/
def agent_geo_url (city : String) : String :=
  "https://geocoding-api.open-meteo.com/v1/search?name=" ++ city ++
    "&count=1&language=en&format=json"

/-- Body of the try block of agent.py get_weather: same geocode then
forecast composition, but early returns are human-readable sentences and
the success value is a single formatted sentence.  The date argument is
received but never read. -/
def get_weather_try (city date : String) (http : Http) : Except String String :=
  match http.geo (agent_geo_url city) with
  | .exn e => .error e
  | .ok geo_res =>
    match geo_res.results with
    | none => .ok ("Could not find location for " ++ city)
    | some [] => .ok ("Could not find location for " ++ city)
    | some (location :: _) =>
      match location.latitude with
      | none => .error "KeyError: latitude"
      | some lat =>
        match location.longitude with
        | none => .error "KeyError: longitude"
        | some lon =>
          match http.weather (weather_url lat lon) with
          | .exn e => .error e
          | .ok weather_res =>
            match weather_res.daily with
            | none => .ok "Could not fetch weather data."
            | some daily =>
              match daily.temperature_2m_max with
              | none => .error "KeyError: temperature_2m_max"
              | some [] => .error "list index out of range"
              | some (temp_max :: _) =>
                match daily.temperature_2m_min with
                | none => .error "KeyError: temperature_2m_min"
                | some [] => .error "list index out of range"
                | some (temp_min :: _) =>
                  match daily.precipitation_probability_max with
                  | none => .error "KeyError: precipitation_probability_max"
                  | some [] => .error "list index out of range"
                  | some (precip_prob :: _) =>
                    .ok ("Weather in " ++ city ++ " (" ++ location.country.getD "" ++
                      "): Max " ++ toString temp_max ++ "°C, Min " ++ toString temp_min ++
                      "°C, Rain chance: " ++ toString precip_prob ++ "%.")

/-- agent.py get_weather: the except handler turns any exception into an
error sentence, so the tool always returns a string to the agent runtime. -/
def get_weather (city date : String) (http : Http) : String :=
  match get_weather_try city date http with
  | .ok s => s
  | .error e => "Error fetching weather: " ++ e

/-- JS String.prototype.startsWith on character lists. -/
def startsWithList : List Char → List Char → Bool
  | [], _ => true
  | _ :: _, [] => false
  | p :: ps, c :: cs => p = c && startsWithList ps cs

/-- JS line.trim: whitespace stripped from both ends. -/
def jsTrim (s : String) : String :=
  ⟨((s.data.dropWhile Char.isWhitespace).reverse.dropWhile Char.isWhitespace).reverse⟩

/-- JS line.substring n for our ASCII inputs: drop the first n characters. -/
def jsSubstring (n : Nat) (s : String) : String :=
  ⟨s.data.drop n⟩

/-- JS text.split for the one-character separator of a newline:
non-overlapping left-to-right splitting. -/
def splitNl : List Char → List (List Char)
  | [] => [[]]
  | '\n' :: rest => [] :: splitNl rest
  | c :: rest =>
      match splitNl rest with
      | [] => [[c]]
      | seg :: segs => (c :: seg) :: segs

/-- JS line.split on the two-character double-asterisk separator:
non-overlapping left-to-right splitting. -/
def splitStar2 : List Char → List (List Char)
  | [] => [[]]
  | '*' :: '*' :: rest => [] :: splitStar2 rest
  | c :: rest =>
      match splitStar2 rest with
      | [] => [[c]]
      | seg :: segs => (c :: seg) :: segs

/-- The inner loop of the bold branch of formatMarkdown in the frontend
script: append each split segment, and after every segment but the last
append an opening strong tag at even indices and a closing one at odd. -/
def boldJoin : Nat → List String → String
  | _, [] => ""
  | _, [p] => p
  | i, p :: q :: rest =>
      p ++ (if i % 2 = 0 then "<strong>" else "</strong>") ++ boldJoin (i + 1) (q :: rest)

/-- Per-line translation of formatMarkdown: heading, bullet (two spellings),
bold line, blank line, plain line.  JS line.includes of the double asterisk
holds exactly when the split produces at least two segments. -/
def formatLine (line : String) : String :=
  if startsWithList "### ".data line.data then
    "<h3>" ++ jsSubstring 4 line ++ "</h3>"
  else if startsWithList "* ".data (jsTrim line).data then
    "<li>" ++ jsSubstring 2 (jsTrim line) ++ "</li>"
  else if startsWithList "- ".data (jsTrim line).data then
    "<li>" ++ jsSubstring 2 (jsTrim line) ++ "</li>"
  else if 2 ≤ (splitStar2 line.data).length then
    boldJoin 0 ((splitStar2 line.data).map String.mk) ++ "<br>"
  else if jsTrim line = "" then
    "<p></p>"
  else
    line ++ "<br>"

/-- formatMarkdown from the frontend script in main.py: empty input is
falsy and yields the empty string, otherwise the newline-split lines are
translated one by one and concatenated. -/
def formatMarkdown (text : String) : String :=
  if text = "" then ""
  else String.join (((splitNl text.data).map String.mk).map formatLine)

/-! Concrete upstream environments used to instantiate the theorems below
on explicit inputs. -/

/-- A geocoding result with coordinates and a country. -/
def loc1 : GeoLocation :=
  { latitude := some 48, longitude := some 2, country := some "France" }

/-- A geocoding result whose body has no country key. -/
def locNC : GeoLocation :=
  { latitude := some 48, longitude := some 2, country := none }

/-- A daily forecast with one entry per array. -/
def daily1 : DailyData :=
  { temperature_2m_max := some [25], temperature_2m_min := some [14],
    precipitation_probability_max := some [10] }

/-- A daily forecast whose maximum is below its minimum. -/
def dailyInv : DailyData :=
  { temperature_2m_max := some [5], temperature_2m_min := some [20],
    precipitation_probability_max := some [10] }

/-- Both services answer normally. -/
def httpOk : Http :=
  { geo := fun _ => .ok { results := some [loc1] }
    weather := fun _ => .ok { daily := some daily1 } }

/-- Normal services, but the geocoder result carries no country key. -/
def httpNC : Http :=
  { geo := fun _ => .ok { results := some [locNC] }
    weather := fun _ => .ok { daily := some daily1 } }

/-- Normal services returning the inverted-temperature forecast. -/
def httpInv : Http :=
  { geo := fun _ => .ok { results := some [loc1] }
    weather := fun _ => .ok { daily := some dailyInv } }

/-- The geocoding request itself raises. -/
def httpGeoExn : Http :=
  { geo := fun _ => .exn "boom"
    weather := fun _ => .exn "boom" }

/-- The geocoder answers with zero results. -/
def httpNoResults : Http :=
  { geo := fun _ => .ok { results := none }
    weather := fun _ => .exn "boom" }

/-- The geocoder answers with an empty results array. -/
def httpEmptyResults : Http :=
  { geo := fun _ => .ok { results := some [] }
    weather := fun _ => .exn "boom" }

/-- The forecast body has no daily section. -/
def httpNoDaily : Http :=
  { geo := fun _ => .ok { results := some [loc1] }
    weather := fun _ => .ok { daily := none } }

/-- A daily forecast whose arrays are all empty. -/
def dailyEmpty : DailyData :=
  { temperature_2m_max := some [], temperature_2m_min := some [],
    precipitation_probability_max := some [] }

/-- The forecast daily arrays are all empty. -/
def httpEmptyArrays : Http :=
  { geo := fun _ => .ok { results := some [loc1] }
    weather := fun _ => .ok { daily := some dailyEmpty } }

/-- A geocoding result whose body has no latitude key. -/
def locNoLat : GeoLocation :=
  { latitude := none, longitude := some 2, country := some "France" }

/-- The geocoder first result lacks its latitude. -/
def httpNoLat : Http :=
  { geo := fun _ => .ok { results := some [locNoLat] }
    weather := fun _ => .exn "boom" }

/-- The generative service raises on every prompt. -/
def genErr : GenEnv :=
  { generate_content := fun _ => .exn "boom" }

/-! Helper lemmas shared by the claim theorems. -/

/-- A lookup that produces a summary means the try block returned it. -/
theorem get_weather_data_eq_try (city : String) (http : Http) (s : WeatherSummary)
    (h : get_weather_data city http = some s) :
    get_weather_data_try city http = .ok (some s) := by
  unfold get_weather_data at h
  split at h
  case h_1 v heq => rw [h] at heq; exact heq
  case h_2 => exact absurd h (by simp)

/-- An exception propagating out of the try block makes the lookup None. -/
theorem get_weather_data_none_of_error (city : String) (http : Http) (e : String)
    (h : get_weather_data_try city http = .error e) :
    get_weather_data city http = none := by
  simp [get_weather_data, h]

/-- Full structure of a successful run of the try block: every upstream
piece was present, and the summary fields are exactly the caller city, the
defaulted country and the heads of the three daily arrays. -/
theorem get_weather_data_try_some (city : String) (http : Http) (s : WeatherSummary)
    (h : get_weather_data_try city http = .ok (some s)) :
    ∃ gr loc rest lat lon wr daily tmax tl tmin ml pp pl,
      http.geo (geo_url city) = .ok gr ∧ gr.results = some (loc :: rest) ∧
      loc.latitude = some lat ∧ loc.longitude = some lon ∧
      http.weather (weather_url lat lon) = .ok wr ∧ wr.daily = some daily ∧
      daily.temperature_2m_max = some (tmax :: tl) ∧
      daily.temperature_2m_min = some (tmin :: ml) ∧
      daily.precipitation_probability_max = some (pp :: pl) ∧
      s = { city := city, country := loc.country.getD "",
            temp_max := tmax, temp_min := tmin, precip_prob := pp } := by
  unfold get_weather_data_try at h
  repeat' split at h
  all_goals simp_all

/-- Composition of the two lemmas above. -/
theorem get_weather_data_some (city : String) (http : Http) (s : WeatherSummary)
    (h : get_weather_data city http = some s) :
    ∃ gr loc rest lat lon wr daily tmax tl tmin ml pp pl,
      http.geo (geo_url city) = .ok gr ∧ gr.results = some (loc :: rest) ∧
      loc.latitude = some lat ∧ loc.longitude = some lon ∧
      http.weather (weather_url lat lon) = .ok wr ∧ wr.daily = some daily ∧
      daily.temperature_2m_max = some (tmax :: tl) ∧
      daily.temperature_2m_min = some (tmin :: ml) ∧
      daily.precipitation_probability_max = some (pp :: pl) ∧
      s = { city := city, country := loc.country.getD "",
            temp_max := tmax, temp_min := tmin, precip_prob := pp } :=
  get_weather_data_try_some city http s (get_weather_data_eq_try city http s h)

/-- A geocoding exception makes the lookup None. -/
theorem none_of_geo_exn (city : String) (http : Http) (e : String)
    (hg : http.geo (geo_url city) = .exn e) :
    get_weather_data city http = none := by
  simp [get_weather_data, get_weather_data_try, hg]

/-- A missing or empty results array makes the lookup None. -/
theorem none_of_no_results (city : String) (http : Http) (gr : GeoResponse)
    (hg : http.geo (geo_url city) = .ok gr)
    (hr : gr.results = none ∨ gr.results = some []) :
    get_weather_data city http = none := by
  rcases hr with hr | hr <;> simp [get_weather_data, get_weather_data_try, hg, hr]

/-- A forecast exception makes the lookup None. -/
theorem none_of_weather_exn (city : String) (http : Http) (gr : GeoResponse)
    (loc : GeoLocation) (rest : List GeoLocation) (lat lon : JNum) (e : String)
    (hg : http.geo (geo_url city) = .ok gr) (hr : gr.results = some (loc :: rest))
    (hlat : loc.latitude = some lat) (hlon : loc.longitude = some lon)
    (hw : http.weather (weather_url lat lon) = .exn e) :
    get_weather_data city http = none := by
  simp [get_weather_data, get_weather_data_try, hg, hr, hlat, hlon, hw]

/-- A forecast body without a daily section makes the lookup None. -/
theorem none_of_no_daily (city : String) (http : Http) (gr : GeoResponse)
    (loc : GeoLocation) (rest : List GeoLocation) (lat lon : JNum) (wr : WeatherResponse)
    (hg : http.geo (geo_url city) = .ok gr) (hr : gr.results = some (loc :: rest))
    (hlat : loc.latitude = some lat) (hlon : loc.longitude = some lon)
    (hw : http.weather (weather_url lat lon) = .ok wr) (hd : wr.daily = none) :
    get_weather_data city http = none := by
  simp [get_weather_data, get_weather_data_try, hg, hr, hlat, hlon, hw, hd]

/-- A missing latitude or longitude key makes the lookup None. -/
theorem none_of_no_coords (city : String) (http : Http) (gr : GeoResponse)
    (loc : GeoLocation) (rest : List GeoLocation)
    (hg : http.geo (geo_url city) = .ok gr) (hr : gr.results = some (loc :: rest))
    (hc : loc.latitude = none ∨ loc.longitude = none) :
    get_weather_data city http = none := by
  rcases hc with hc | hc
  · simp [get_weather_data, get_weather_data_try, hg, hr, hc]
  · rcases hlat : loc.latitude with _ | lat <;>
      simp [get_weather_data, get_weather_data_try, hg, hr, hlat, hc]

/-- A missing or empty daily array makes the lookup None, whichever of the
three arrays it is. -/
theorem none_of_bad_arrays (city : String) (http : Http) (gr : GeoResponse)
    (loc : GeoLocation) (rest : List GeoLocation) (lat lon : JNum)
    (wr : WeatherResponse) (daily : DailyData)
    (hg : http.geo (geo_url city) = .ok gr) (hr : gr.results = some (loc :: rest))
    (hlat : loc.latitude = some lat) (hlon : loc.longitude = some lon)
    (hw : http.weather (weather_url lat lon) = .ok wr) (hd : wr.daily = some daily)
    (ha : daily.temperature_2m_max = none ∨ daily.temperature_2m_max = some [] ∨
          daily.temperature_2m_min = none ∨ daily.temperature_2m_min = some [] ∨
          daily.precipitation_probability_max = none ∨
          daily.precipitation_probability_max = some []) :
    get_weather_data city http = none := by
  rcases ha with ha | ha | ha | ha | ha | ha
  · simp [get_weather_data, get_weather_data_try, hg, hr, hlat, hlon, hw, hd, ha]
  · simp [get_weather_data, get_weather_data_try, hg, hr, hlat, hlon, hw, hd, ha]
  · rcases h1 : daily.temperature_2m_max with _ | (_ | ⟨v, vs⟩) <;>
      simp [get_weather_data, get_weather_data_try, hg, hr, hlat, hlon, hw, hd, h1, ha]
  · rcases h1 : daily.temperature_2m_max with _ | (_ | ⟨v, vs⟩) <;>
      simp [get_weather_data, get_weather_data_try, hg, hr, hlat, hlon, hw, hd, h1, ha]
  · rcases h1 : daily.temperature_2m_max with _ | (_ | ⟨v, vs⟩) <;>
      rcases h2 : daily.temperature_2m_min with _ | (_ | ⟨w, ws⟩) <;>
      simp [get_weather_data, get_weather_data_try, hg, hr, hlat, hlon, hw, hd, h1, h2, ha]
  · rcases h1 : daily.temperature_2m_max with _ | (_ | ⟨v, vs⟩) <;>
      rcases h2 : daily.temperature_2m_min with _ | (_ | ⟨w, ws⟩) <;>
      simp [get_weather_data, get_weather_data_try, hg, hr, hlat, hlon, hw, hd, h1, h2, ha]

/-! Claim theorems. -/

/-- C1: GET /weather/(city) answers 200 with the summary exactly when the
lookup succeeds and 404 with detail "City not found" exactly when it
returns None; a geocoding exception and zero geocoding results (missing or
empty results array) all collapse to that same 404. -/
theorem c1_weather_endpoint (city : String) (http : Http) :
    (∀ s, get_weather_endpoint city http = .ok s ↔ get_weather_data city http = some s)
  ∧ (get_weather_endpoint city http = .httpError 404 "City not found"
      ↔ get_weather_data city http = none)
  ∧ (∀ e, http.geo (geo_url city) = .exn e →
      get_weather_endpoint city http = .httpError 404 "City not found")
  ∧ (∀ gr, http.geo (geo_url city) = .ok gr → (gr.results = none ∨ gr.results = some []) →
      get_weather_endpoint city http = .httpError 404 "City not found") := by
  refine ⟨?_, ?_, ?_, ?_⟩
  · intro s
    rcases hd : get_weather_data city http with _ | w <;> simp [get_weather_endpoint, hd]
  · rcases hd : get_weather_data city http with _ | w <;> simp [get_weather_endpoint, hd]
  · intro e hg
    have hn := none_of_geo_exn city http e hg
    simp [get_weather_endpoint, hn]
  · intro gr hg hr
    have hn := none_of_no_results city http gr hg hr
    simp [get_weather_endpoint, hn]

/-- C1 witness: a concrete geocoding exception yields the 404 response. -/
theorem c1_witness :
    get_weather_endpoint "Paris" httpGeoExn = .httpError 404 "City not found" :=
  (c1_weather_endpoint "Paris" httpGeoExn).2.2.1 "boom" rfl

/-- C2: the lookup is total: it yields None or a summary, never an escaped
exception; an exception inside the try block yields None; a daily-less
forecast yields None; an empty daily array yields None; and a returned
summary certifies that all three arrays were non-empty, its numeric fields
being their heads. -/
theorem c2_lookup_total (city : String) (http : Http) :
    (get_weather_data city http = none ∨ ∃ s, get_weather_data city http = some s)
  ∧ (∀ e, get_weather_data_try city http = .error e → get_weather_data city http = none)
  ∧ (∀ gr loc rest lat lon wr, http.geo (geo_url city) = .ok gr →
      gr.results = some (loc :: rest) → loc.latitude = some lat → loc.longitude = some lon →
      http.weather (weather_url lat lon) = .ok wr → wr.daily = none →
      get_weather_data city http = none)
  ∧ (∀ gr loc rest lat lon wr daily, http.geo (geo_url city) = .ok gr →
      gr.results = some (loc :: rest) → loc.latitude = some lat → loc.longitude = some lon →
      http.weather (weather_url lat lon) = .ok wr → wr.daily = some daily →
      (daily.temperature_2m_max = some [] ∨ daily.temperature_2m_min = some [] ∨
       daily.precipitation_probability_max = some []) →
      get_weather_data city http = none)
  ∧ (∀ s, get_weather_data city http = some s →
      ∃ gr loc rest lat lon wr daily tl ml pl,
        http.geo (geo_url city) = .ok gr ∧ gr.results = some (loc :: rest) ∧
        loc.latitude = some lat ∧ loc.longitude = some lon ∧
        http.weather (weather_url lat lon) = .ok wr ∧ wr.daily = some daily ∧
        daily.temperature_2m_max = some (s.temp_max :: tl) ∧
        daily.temperature_2m_min = some (s.temp_min :: ml) ∧
        daily.precipitation_probability_max = some (s.precip_prob :: pl)) := by
  refine ⟨?_, ?_, ?_, ?_, ?_⟩
  · rcases hd : get_weather_data city http with _ | s
    · exact Or.inl rfl
    · exact Or.inr ⟨s, rfl⟩
  · intro e h
    exact get_weather_data_none_of_error city http e h
  · intro gr loc rest lat lon wr hg hr hlat hlon hw hd
    exact none_of_no_daily city http gr loc rest lat lon wr hg hr hlat hlon hw hd
  · intro gr loc rest lat lon wr daily hg hr hlat hlon hw hd ha
    exact none_of_bad_arrays city http gr loc rest lat lon wr daily hg hr hlat hlon hw hd
      (by tauto)
  · intro s hs
    obtain ⟨gr, loc, rest, lat, lon, wr, daily, tmax, tl, tmin, ml, pp, pl,
      hg, hr, hlat, hlon, hw, hd, h1, h2, h3, hsum⟩ := get_weather_data_some city http s hs
    subst hsum
    exact ⟨gr, loc, rest, lat, lon, wr, daily, tl, ml, pl,
      hg, hr, hlat, hlon, hw, hd, h1, h2, h3⟩

/-- C2 witness: with all three daily arrays empty the lookup is None. -/
theorem c2_witness : get_weather_data "Paris" httpEmptyArrays = none :=
  (c2_lookup_total "Paris" httpEmptyArrays).2.2.2.1 ⟨some [loc1]⟩ loc1 [] 48 2
    ⟨some dailyEmpty⟩ dailyEmpty rfl rfl rfl rfl rfl rfl (Or.inl rfl)

/-- C3 (counterexample): the geocoder first result of httpNC carries no
country key, yet the lookup does not fail: it returns a summary whose
country was silently defaulted to the empty string, refuting the claim
that any missing piece of provider data yields NotFound. -/
theorem c3_counterexample :
    locNC.country = none
  ∧ get_weather_data "Paris" httpNC
      = some { city := "Paris", country := "", temp_max := 25, temp_min := 14, precip_prob := 10 }
  ∧ get_weather_data "Paris" httpNC ≠ none :=
  ⟨rfl, rfl, by decide⟩

/-- C3 (amended): a returned summary always has every field populated: city
is the caller string, country the geocoder country defaulted to "" when the
key is absent, and the numeric fields the heads of the three provider
arrays, which were necessarily present and non-empty; missing coordinates,
or a missing or empty daily array, make the lookup fail with None instead
of a partial summary — only a missing country key is defaulted rather than
failed. -/
theorem c3_fields_required (city : String) (http : Http) :
    (∀ s, get_weather_data city http = some s →
      ∃ gr loc rest lat lon wr daily tl ml pl,
        http.geo (geo_url city) = .ok gr ∧ gr.results = some (loc :: rest) ∧
        loc.latitude = some lat ∧ loc.longitude = some lon ∧
        http.weather (weather_url lat lon) = .ok wr ∧ wr.daily = some daily ∧
        daily.temperature_2m_max = some (s.temp_max :: tl) ∧
        daily.temperature_2m_min = some (s.temp_min :: ml) ∧
        daily.precipitation_probability_max = some (s.precip_prob :: pl) ∧
        s.city = city ∧ s.country = loc.country.getD "")
  ∧ (∀ gr loc rest, http.geo (geo_url city) = .ok gr → gr.results = some (loc :: rest) →
      (loc.latitude = none ∨ loc.longitude = none) → get_weather_data city http = none)
  ∧ (∀ gr loc rest lat lon wr, http.geo (geo_url city) = .ok gr →
      gr.results = some (loc :: rest) → loc.latitude = some lat → loc.longitude = some lon →
      http.weather (weather_url lat lon) = .ok wr → wr.daily = none →
      get_weather_data city http = none)
  ∧ (∀ gr loc rest lat lon wr daily, http.geo (geo_url city) = .ok gr →
      gr.results = some (loc :: rest) → loc.latitude = some lat → loc.longitude = some lon →
      http.weather (weather_url lat lon) = .ok wr → wr.daily = some daily →
      (daily.temperature_2m_max = none ∨ daily.temperature_2m_max = some [] ∨
       daily.temperature_2m_min = none ∨ daily.temperature_2m_min = some [] ∨
       daily.precipitation_probability_max = none ∨
       daily.precipitation_probability_max = some []) →
      get_weather_data city http = none) := by
  refine ⟨?_, ?_, ?_, ?_⟩
  · intro s hs
    obtain ⟨gr, loc, rest, lat, lon, wr, daily, tmax, tl, tmin, ml, pp, pl,
      hg, hr, hlat, hlon, hw, hd, h1, h2, h3, hsum⟩ := get_weather_data_some city http s hs
    subst hsum
    exact ⟨gr, loc, rest, lat, lon, wr, daily, tl, ml, pl,
      hg, hr, hlat, hlon, hw, hd, h1, h2, h3, rfl, rfl⟩
  · intro gr loc rest hg hr hc
    exact none_of_no_coords city http gr loc rest hg hr hc
  · intro gr loc rest lat lon wr hg hr hlat hlon hw hd
    exact none_of_no_daily city http gr loc rest lat lon wr hg hr hlat hlon hw hd
  · intro gr loc rest lat lon wr daily hg hr hlat hlon hw hd ha
    exact none_of_bad_arrays city http gr loc rest lat lon wr daily hg hr hlat hlon hw hd ha

/-- C3 witness: a first result without latitude makes the lookup None. -/
theorem c3_witness : get_weather_data "Paris" httpNoLat = none :=
  (c3_fields_required "Paris" httpNoLat).2.1 ⟨some [locNoLat]⟩ locNoLat []
    rfl rfl (Or.inl rfl)

/-- C4: pass-through fidelity — a returned summary carries exactly the
index-0 elements of the provider arrays as its three numeric fields — and
no max-at-least-min check exists: an inverted forecast with maximum 5 and
minimum 20 is returned unchanged. -/
theorem c4_passthrough (city : String) (http : Http) :
    (∀ s, get_weather_data city http = some s →
      ∃ gr loc rest lat lon wr daily tl ml pl,
        http.geo (geo_url city) = .ok gr ∧ gr.results = some (loc :: rest) ∧
        loc.latitude = some lat ∧ loc.longitude = some lon ∧
        http.weather (weather_url lat lon) = .ok wr ∧ wr.daily = some daily ∧
        daily.temperature_2m_max = some (s.temp_max :: tl) ∧
        daily.temperature_2m_min = some (s.temp_min :: ml) ∧
        daily.precipitation_probability_max = some (s.precip_prob :: pl))
  ∧ (get_weather_data "X" httpInv
      = some { city := "X", country := "France", temp_max := 5, temp_min := 20, precip_prob := 10 }
    ∧ (5 : JNum) < 20) := by
  refine ⟨?_, rfl, by decide⟩
  intro s hs
  obtain ⟨gr, loc, rest, lat, lon, wr, daily, tmax, tl, tmin, ml, pp, pl,
    hg, hr, hlat, hlon, hw, hd, h1, h2, h3, hsum⟩ := get_weather_data_some city http s hs
  subst hsum
  exact ⟨gr, loc, rest, lat, lon, wr, daily, tl, ml, pl,
    hg, hr, hlat, hlon, hw, hd, h1, h2, h3⟩

/-- C4 witness: the pass-through structure instantiated on the normal
environment and its concrete summary. -/
theorem c4_witness :
    ∃ gr loc rest lat lon wr daily tl ml pl,
      httpOk.geo (geo_url "Paris") = .ok gr ∧ gr.results = some (loc :: rest) ∧
      loc.latitude = some lat ∧ loc.longitude = some lon ∧
      httpOk.weather (weather_url lat lon) = .ok wr ∧ wr.daily = some daily ∧
      daily.temperature_2m_max = some ((25 : JNum) :: tl) ∧
      daily.temperature_2m_min = some ((14 : JNum) :: ml) ∧
      daily.precipitation_probability_max = some ((10 : JNum) :: pl) :=
  (c4_passthrough "Paris" httpOk).1
    { city := "Paris", country := "France", temp_max := 25, temp_min := 14, precip_prob := 10 }
    rfl

/-- Space encoding leaves no space behind. -/
theorem count_space_replaceSpace20 (cs : List Char) :
    (replaceSpace20 cs).count ' ' = 0 := by
  induction cs with
  | nil => rfl
  | cons c cs ih =>
    by_cases h : c = ' '
    · simp [replaceSpace20, h, ih, List.count_cons]
    · simp [replaceSpace20, h, ih, List.count_cons]

/-- C5 (counterexample): main.py encodes the space of "New York", but the
agent tool embeds the city verbatim, so its geocoding URL keeps the raw
space and differs from the space-encoded form the claim asserts. -/
theorem c5_counterexample :
    agent_geo_url "New York"
      = "https://geocoding-api.open-meteo.com/v1/search?name=New York&count=1&language=en&format=json"
  ∧ agent_geo_url "New York"
      ≠ "https://geocoding-api.open-meteo.com/v1/search?name=" ++ city_quoted "New York" ++
          "&count=1&language=en&format=json"
  ∧ geo_url "New York"
      = "https://geocoding-api.open-meteo.com/v1/search?name=New%20York&count=1&language=en&format=json" :=
  ⟨by decide, by decide, by decide⟩

/-- C5 (amended): only main.py get_weather_data replaces spaces with the
percent escape — its geocoding URL never contains a space — while the agent
tool embeds the city verbatim, its URL keeping exactly the spaces of the
input. -/
theorem c5_space_encoding (city : String) :
    (geo_url city).data.count ' ' = 0
  ∧ (agent_geo_url city).data.count ' ' = city.data.count ' ' := by
  have hc1 : ("https://geocoding-api.open-meteo.com/v1/search?name=".data).count ' ' = 0 := by
    decide
  have hc2 : ("&count=1&language=en&format=json".data).count ' ' = 0 := by
    decide
  have hgeo : (geo_url city).data
      = "https://geocoding-api.open-meteo.com/v1/search?name=".data
        ++ replaceSpace20 city.data
        ++ "&count=1&language=en&format=json".data := by
    show ("https://geocoding-api.open-meteo.com/v1/search?name=" ++ city_quoted city
        ++ "&count=1&language=en&format=json").data = _
    rw [String.data_append, String.data_append]
    rfl
  have hag : (agent_geo_url city).data
      = "https://geocoding-api.open-meteo.com/v1/search?name=".data
        ++ city.data
        ++ "&count=1&language=en&format=json".data := by
    show ("https://geocoding-api.open-meteo.com/v1/search?name=" ++ city
        ++ "&count=1&language=en&format=json").data = _
    rw [String.data_append, String.data_append]
  constructor
  · rw [hgeo, List.count_append, List.count_append, hc1, hc2,
      count_space_replaceSpace20 city.data]
  · rw [hag, List.count_append, List.count_append, hc1, hc2]
    omega

/-- C6: when the lookup succeeds and the generative call raises, POST
/travel_advice answers 500 with detail "AI Agent error: " followed by the
exception message, and never a 200 body. -/
theorem c6_travel_advice_error (destination : String) (http : Http) (gen : GenEnv)
    (w : WeatherSummary) (e : String)
    (hw : get_weather_data destination http = some w)
    (he : gen.generate_content (advice_prompt w) = .exn e) :
    travel_advice destination http gen = .httpError 500 ("AI Agent error: " ++ e)
    ∧ ∀ r, travel_advice destination http gen ≠ .ok r := by
  constructor
  · simp [travel_advice, hw, he]
  · intro r
    simp [travel_advice, hw, he]

/-- C6 witness: a concrete erroring generative service on a valid city. -/
theorem c6_witness :
    travel_advice "Paris" httpOk genErr = .httpError 500 ("AI Agent error: " ++ "boom")
    ∧ ∀ r, travel_advice "Paris" httpOk genErr ≠ .ok r :=
  c6_travel_advice_error "Paris" httpOk genErr
    { city := "Paris", country := "France", temp_max := 25, temp_min := 14, precip_prob := 10 }
    "boom" rfl rfl

/-- C7: on the specified three-line input, formatMarkdown produces exactly
the heading, the single list item, and the bold line whose split segments
open a strong tag at the even boundary and close it at the odd one,
followed by the line break. -/
theorem c7_formatMarkdown :
    formatMarkdown "### Clothing\n* Bring a coat\n**Note:** stay warm"
      = "<h3>Clothing</h3><li>Bring a coat</li><strong>Note:</strong> stay warm<br>" := by
  decide

/-- Every run of the agent tool try block ends in one of four shapes: a
propagating exception, the location sentence, the fetch sentence, or the
success sentence. -/
theorem get_weather_try_classify (city date : String) (http : Http) :
    (∃ e, get_weather_try city date http = .error e)
  ∨ get_weather_try city date http = .ok ("Could not find location for " ++ city)
  ∨ get_weather_try city date http = .ok "Could not fetch weather data."
  ∨ (∃ (ctry : String) (tmax tmin pp : JNum), get_weather_try city date http =
      .ok ("Weather in " ++ city ++ " (" ++ ctry ++ "): Max " ++ toString tmax ++
        "°C, Min " ++ toString tmin ++ "°C, Rain chance: " ++ toString pp ++ "%.")) := by
  unfold get_weather_try
  repeat' split
  all_goals
    first
      | exact Or.inl ⟨_, rfl⟩
      | exact Or.inr (Or.inl rfl)
      | exact Or.inr (Or.inr (Or.inl rfl))
      | exact Or.inr (Or.inr (Or.inr ⟨_, _, _, _, rfl⟩))

/-- C8: the agent tool is exception-safe: every exception raised inside its
body surfaces as the error sentence with the underlying message; zero
geocoding results yield the location sentence; a daily-less forecast yields
the fetch sentence; a geocoding exception yields the error sentence; and
unconditionally the result is one of the four sentence shapes — a string is
always returned. -/
theorem c8_get_weather_total (city date : String) (http : Http) :
    (∀ e, get_weather_try city date http = .error e →
      get_weather city date http = "Error fetching weather: " ++ e)
  ∧ (∀ gr, http.geo (agent_geo_url city) = .ok gr →
      (gr.results = none ∨ gr.results = some []) →
      get_weather city date http = "Could not find location for " ++ city)
  ∧ (∀ gr loc rest lat lon wr, http.geo (agent_geo_url city) = .ok gr →
      gr.results = some (loc :: rest) → loc.latitude = some lat → loc.longitude = some lon →
      http.weather (weather_url lat lon) = .ok wr → wr.daily = none →
      get_weather city date http = "Could not fetch weather data.")
  ∧ (∀ e, http.geo (agent_geo_url city) = .exn e →
      get_weather city date http = "Error fetching weather: " ++ e)
  ∧ ((∃ e, get_weather city date http = "Error fetching weather: " ++ e)
      ∨ get_weather city date http = "Could not find location for " ++ city
      ∨ get_weather city date http = "Could not fetch weather data."
      ∨ (∃ (ctry : String) (tmax tmin pp : JNum), get_weather city date http =
          "Weather in " ++ city ++ " (" ++ ctry ++ "): Max " ++ toString tmax ++
          "°C, Min " ++ toString tmin ++ "°C, Rain chance: " ++ toString pp ++ "%.")) := by
  refine ⟨?_, ?_, ?_, ?_, ?_⟩
  · intro e h
    simp [get_weather, h]
  · intro gr hg hr
    rcases hr with hr | hr <;> simp [get_weather, get_weather_try, hg, hr]
  · intro gr loc rest lat lon wr hg hr hlat hlon hw hd
    simp [get_weather, get_weather_try, hg, hr, hlat, hlon, hw, hd]
  · intro e hg
    simp [get_weather, get_weather_try, hg]
  · rcases get_weather_try_classify city date http with ⟨e, he⟩ | h | h | ⟨ctry, tmax, tmin, pp, h⟩
    · exact Or.inl ⟨e, by simp [get_weather, he]⟩
    · exact Or.inr (Or.inl (by simp [get_weather, h]))
    · exact Or.inr (Or.inr (Or.inl (by simp [get_weather, h])))
    · exact Or.inr (Or.inr (Or.inr ⟨ctry, tmax, tmin, pp, by simp [get_weather, h]⟩))

/-- C8 witness: a concrete geocoding exception becomes an error sentence. -/
theorem c8_witness :
    get_weather "Paris" "Sunday" httpGeoExn = "Error fetching weather: " ++ "boom" :=
  (c8_get_weather_total "Paris" "Sunday" httpGeoExn).2.2.2.1 "boom" rfl

/-- C9: the date argument of the agent tool never influences its result:
for any two date strings and the same upstream world, the tool returns the
identical string. -/
theorem c9_date_ignored (city d1 d2 : String) (http : Http) :
    get_weather city d1 http = get_weather city d2 http := rfl

/-- C10: a returned summary echoes the caller city string verbatim and
takes only its country from the geocoder first result (defaulted when
absent); on its success path the agent sentence likewise embeds the caller
city verbatim together with that geocoder country. -/
theorem c10_city_verbatim (city : String) (http : Http) :
    (∀ s, get_weather_data city http = some s →
      s.city = city ∧ ∃ gr loc rest, http.geo (geo_url city) = .ok gr ∧
        gr.results = some (loc :: rest) ∧ s.country = loc.country.getD "")
  ∧ (∀ date gr loc rest lat lon wr daily tmax tl tmin ml pp pl,
      http.geo (agent_geo_url city) = .ok gr → gr.results = some (loc :: rest) →
      loc.latitude = some lat → loc.longitude = some lon →
      http.weather (weather_url lat lon) = .ok wr → wr.daily = some daily →
      daily.temperature_2m_max = some (tmax :: tl) →
      daily.temperature_2m_min = some (tmin :: ml) →
      daily.precipitation_probability_max = some (pp :: pl) →
      get_weather city date http =
        "Weather in " ++ city ++ " (" ++ loc.country.getD "" ++ "): Max " ++ toString tmax ++
          "°C, Min " ++ toString tmin ++ "°C, Rain chance: " ++ toString pp ++ "%.") := by
  constructor
  · intro s hs
    obtain ⟨gr, loc, rest, lat, lon, wr, daily, tmax, tl, tmin, ml, pp, pl,
      hg, hr, hlat, hlon, hw, hd, h1, h2, h3, hsum⟩ := get_weather_data_some city http s hs
    subst hsum
    exact ⟨rfl, gr, loc, rest, hg, hr, rfl⟩
  · intro date gr loc rest lat lon wr daily tmax tl tmin ml pp pl
      hg hr hlat hlon hw hd h1 h2 h3
    simp [get_weather, get_weather_try, hg, hr, hlat, hlon, hw, hd, h1, h2, h3]

/-- C10 witness: the agent sentence on the normal environment embeds the
caller city and the geocoder country. -/
theorem c10_witness :
    get_weather "Paris" "Sunday" httpOk
      = "Weather in " ++ "Paris" ++ " (" ++ loc1.country.getD "" ++ "): Max " ++
          toString (25 : JNum) ++ "°C, Min " ++ toString (14 : JNum) ++
          "°C, Rain chance: " ++ toString (10 : JNum) ++ "%." :=
  (c10_city_verbatim "Paris" httpOk).2 "Sunday" ⟨some [loc1]⟩ loc1 [] 48 2
    ⟨some daily1⟩ daily1 25 [] 14 [] 10 [] rfl rfl rfl rfl rfl rfl rfl rfl rfl
